import Mathlib

/-
Verification of the quantum phase-estimation driver
(qiskit/algorithms/phase_estimators/phase_estimation.py).

The driver is embedded shallowly: circuits are lists of instructions over
indexed qubits, the orchestrator's instance attributes are an explicit state
record, Python attribute errors and ValueErrors are an explicit error type,
and `estimate` is a pure function that additionally reports the calls made to
the external executor and the final value of the caller-supplied `pe_circuit`
object (which the Python code mutates in place).
-/

namespace QPE

/-- A single circuit instruction: gate name, the qubit indices it acts on,
and the classical bit indices it writes (non-empty only for measurements). -/
structure Instruction where
  name : String
  qubits : List Nat
  clbits : List Nat
deriving DecidableEq

/-- Shallow model of a qiskit `QuantumCircuit`: a fixed qubit count, the list
of classical registers (name and width) added so far, and the instruction
list in program order. -/
structure QuantumCircuit where
  num_qubits : Nat
  cregs : List (String × Nat)
  data : List Instruction
deriving DecidableEq

/-- Python-level errors surfaced by the driver: attribute access on a never
assigned attribute, and `ValueError` with its message. -/
inductive PyError where
  | attributeError (attr : String)
  | valueError (msg : String)
deriving DecidableEq

/-- State of a `PhaseEstimation` instance: `_measurements_added` (set in
`__init__`), `_num_evaluation_qubits` (`none` models the attribute never
having been assigned), and the `is_statevector` flag of the quantum
instance, the only part of it the driver reads besides `execute`. -/
structure PhaseEstimationState where
  measurements_added : Bool
  num_evaluation_qubits : Option Nat
  is_statevector : Bool
deriving DecidableEq

/-- `PhaseEstimation.__init__`: sets `_measurements_added := False` and
assigns `_num_evaluation_qubits` only when the argument is not `None`
(mirroring the `if num_evaluation_qubits is not None:` guard). -/
def phaseEstimationInit (num_evaluation_qubits : Option Nat)
    (is_statevector : Bool) : PhaseEstimationState :=
  { measurements_added := false
  , num_evaluation_qubits := num_evaluation_qubits
  , is_statevector := is_statevector }

/-- Reading `self._num_evaluation_qubits`: raises `AttributeError` when the
attribute was never assigned. -/
def getNumEvaluationQubits (s : PhaseEstimationState) : Except PyError Nat :=
  match s.num_evaluation_qubits with
  | some n => Except.ok n
  | none => Except.error (PyError.attributeError "_num_evaluation_qubits")

/-- Remap an instruction's qubits by adding a fixed offset, as
`QuantumCircuit.compose(..., qubits=range(off, off + k))` does. -/
def shiftIns (off : Nat) (ins : Instruction) : Instruction :=
  { ins with qubits := ins.qubits.map (fun q => off + q) }

/-- Modelled from the spec: `QuantumCircuit.compose(other, qubits=range(off,
off + other.num_qubits), inplace=True, front=True)` lives in
qiskit/circuit/quantumcircuit.py, which is not under src/. Per the spec it
"prepends the state-preparation sub-circuit (if any) onto the unitary's
register range only": the sub-circuit's instructions, with qubit `q`
remapped to `off + q`, are placed before the existing instructions. -/
def composeFront (self other : QuantumCircuit) (off : Nat) : QuantumCircuit :=
  { self with data := other.data.map (shiftIns off) ++ self.data }

/-- Modelled from the spec: `qiskit.circuit.library.PhaseEstimation` is not
under src/. Per the spec it is "a standard phase-estimation template
circuit" over the evaluation register (qubits `0 .. n-1`) followed by the
unitary's qubits; its internal gate structure is irrelevant to the claims,
so it is represented as one opaque template instruction on all qubits. -/
def libraryPhaseEstimation (num_evaluation_qubits : Nat)
    (unitary : QuantumCircuit) : QuantumCircuit :=
  { num_qubits := num_evaluation_qubits + unitary.num_qubits
  , cregs := []
  , data := [⟨"QPE_template",
              List.range (num_evaluation_qubits + unitary.num_qubits), []⟩] }

/-- The circuit resulting from the sampling branch of
`_add_measurement_if_required`: a classical register `("meas", n)` is added,
then a barrier over all qubits, then qubits `0 .. n-1` are measured into
classical bits `0 .. n-1` in that order (`measure(range(n), range(n))`). -/
def measuredCircuit (n : Nat) (c : QuantumCircuit) : QuantumCircuit :=
  { c with
    cregs := c.cregs ++ [("meas", n)]
  , data := c.data ++ Instruction.mk "barrier" (List.range c.num_qubits) []
      :: (List.range n).map (fun i => Instruction.mk "measure" [i] [i]) }

/-- `PhaseEstimation._add_measurement_if_required`: when the quantum instance
is not a statevector one, reads `_num_evaluation_qubits` and appends the
classical register, barrier and measurements in place; otherwise the circuit
is left untouched. The returned circuit is the final state of the (mutated)
argument object. -/
def addMeasurementIfRequired (s : PhaseEstimationState)
    (pe_circuit : QuantumCircuit) : Except PyError QuantumCircuit :=
  if s.is_statevector then Except.ok pe_circuit
  else
    match getNumEvaluationQubits s with
    | Except.error e => Except.error e
    | Except.ok n => Except.ok (measuredCircuit n pe_circuit)

/-- The pure composition part of `construct_circuit`: build the library
phase-estimation template from the unitary, then compose the
state-preparation circuit (when given) in front, on the qubit range
`[n, n + unitary.num_qubits)`. -/
def constructBare (n : Nat) (unitary : QuantumCircuit)
    (state_preparation : Option QuantumCircuit) : QuantumCircuit :=
  match state_preparation with
  | some sp => composeFront (libraryPhaseEstimation n unitary) sp n
  | none => libraryPhaseEstimation n unitary

/-- `PhaseEstimation.construct_circuit`: reads `_num_evaluation_qubits`,
builds the template around the unitary, composes the optional state
preparation in front, and adds measurements when required. -/
def construct_circuit (s : PhaseEstimationState) (unitary : QuantumCircuit)
    (state_preparation : Option QuantumCircuit) :
    Except PyError QuantumCircuit :=
  match getNumEvaluationQubits s with
  | Except.error e => Except.error e
  | Except.ok num_evaluation_qubits =>
      addMeasurementIfRequired s
        (constructBare num_evaluation_qubits unitary state_preparation)

/-- Bitstring reversal `k[::-1]`. -/
def strReverse (s : String) : String := String.mk s.data.reverse

/-- Numeric value of a bitstring read as an unsigned binary number with the
most-significant bit leftmost, i.e. Python's `int(key, 2)` on binary keys. -/
def bitsVal (s : String) : Nat :=
  s.data.foldl (fun acc c => 2 * acc + (if c = '1' then 1 else 0)) 0

/-- Order on phase-distribution entries: compare the numeric values of the
(already bit-reversed) bitstring keys. -/
def phaseLE (a b : String × Rat) : Prop := bitsVal a.1 ≤ bitsVal b.1

instance : DecidableRel phaseLE := fun a b => Nat.decLe (bitsVal a.1) (bitsVal b.1)

instance : IsTotal (String × Rat) phaseLE := ⟨fun a b => Nat.le_total (bitsVal a.1) (bitsVal b.1)⟩

instance : IsTrans (String × Rat) phaseLE := ⟨fun _ _ _ h1 h2 => Nat.le_trans h1 h2⟩

/-- Modelled from the spec: `_sort_phases` lives in
phase_estimation_result.py, which is not under src/. Per the spec the
distribution is "re-sorted so keys iterate in increasing numeric phase
order", with "sort key: numeric value of the bit-reversed bitstring". -/
def sortPhases (phases : List (String × Rat)) : List (String × Rat) :=
  List.insertionSort phaseLE phases

/-- The sampling branch of `PhaseEstimation._compute_phases`: counts are an
association list with the executor's bitstring keys; each key is reversed
and its count divided by the shot count, then the result is sorted by
`_sort_phases`. Exact rational division models Python float division. -/
def computePhasesSampling (counts : List (String × Nat)) (num_shots : Nat) :
    List (String × Rat) :=
  sortPhases (counts.map (fun kv => (strReverse kv.1, (kv.2 : Rat) / (num_shots : Rat))))

/-- What `estimate` hands to `_compute_phases` and the result packager: the
circuit given to the executor and the `num_unitary_qubits` value in use. -/
structure EstimateTrace where
  executed_circuit : QuantumCircuit
  used_num_unitary_qubits : Option Nat
deriving DecidableEq

/-- Full observable outcome of one `estimate` call: the returned value or
raised error, the instance state after the call, the circuits passed to the
external executor (in order), and the final value of the caller-supplied
`pe_circuit` object, which Python mutates in place. -/
structure EstimateOutcome where
  result : Except PyError EstimateTrace
  final_state : PhaseEstimationState
  executor_calls : List QuantumCircuit
  final_pe_circuit_arg : Option QuantumCircuit

/-- `PhaseEstimation.estimate`: reads `_num_evaluation_qubits` first, then
checks the `unitary` / `pe_circuit` argument contract, builds or completes
the circuit, and executes it. Error messages are the source's verbatim
`ValueError` messages. -/
def estimateRun (s : PhaseEstimationState)
    (unitary state_preparation pe_circuit : Option QuantumCircuit)
    (num_unitary_qubits : Option Nat) : EstimateOutcome :=
  match getNumEvaluationQubits s with
  | Except.error e => ⟨Except.error e, s, [], pe_circuit⟩
  | Except.ok _ =>
    match unitary with
    | some u =>
      match pe_circuit with
      | some pc =>
          ⟨Except.error (PyError.valueError
              "Only one of `pe_circuit` and `unitary` may be passed."),
           s, [], some pc⟩
      | none =>
        match construct_circuit s u state_preparation with
        | Except.error e => ⟨Except.error e, s, [], none⟩
        | Except.ok c =>
            ⟨Except.ok ⟨c, some u.num_qubits⟩, s, [c], none⟩
    | none =>
      match pe_circuit with
      | some pc =>
        match addMeasurementIfRequired s pc with
        | Except.error e => ⟨Except.error e, s, [], some pc⟩
        | Except.ok pc2 =>
            ⟨Except.ok ⟨pc2, num_unitary_qubits⟩, s, [pc2], some pc2⟩
      | none =>
          ⟨Except.error (PyError.valueError
              "One of `pe_circuit` and `unitary` must be passed."),
           s, [], none⟩

/-- A sampling-backend instance with two evaluation qubits. -/
def stSampling : PhaseEstimationState := ⟨false, some 2, false⟩

/-- A one-qubit unitary circuit used as concrete input. -/
def circU : QuantumCircuit := ⟨1, [], [⟨"x", [0], []⟩]⟩

/-- A three-qubit pre-built phase-estimation circuit used as concrete input. -/
def circPE : QuantumCircuit := ⟨3, [], [⟨"h", [0], []⟩]⟩

/-- A one-qubit state-preparation circuit used as concrete input. -/
def circSP : QuantumCircuit := ⟨1, [], [⟨"h", [0], []⟩]⟩

lemma getNum_eq (s : PhaseEstimationState) (n : Nat)
    (h : s.num_evaluation_qubits = some n) :
    getNumEvaluationQubits s = Except.ok n := by
  simp [getNumEvaluationQubits, h]

lemma addMeasurement_statevector (s : PhaseEstimationState) (c : QuantumCircuit)
    (hv : s.is_statevector = true) :
    addMeasurementIfRequired s c = Except.ok c := by
  simp [addMeasurementIfRequired, hv]

lemma addMeasurement_sampling (s : PhaseEstimationState) (n : Nat)
    (c : QuantumCircuit) (h : s.num_evaluation_qubits = some n)
    (hv : s.is_statevector = false) :
    addMeasurementIfRequired s c = Except.ok (measuredCircuit n c) := by
  simp [addMeasurementIfRequired, hv, getNum_eq s n h]

lemma construct_circuit_eq (s : PhaseEstimationState) (n : Nat)
    (h : s.num_evaluation_qubits = some n) (u : QuantumCircuit)
    (sp : Option QuantumCircuit) :
    construct_circuit s u sp =
      Except.ok (if s.is_statevector then constructBare n u sp
                 else measuredCircuit n (constructBare n u sp)) := by
  cases hv : s.is_statevector with
  | true =>
      simp [construct_circuit, getNum_eq s n h,
        addMeasurement_statevector s _ hv, hv]
  | false =>
      simp [construct_circuit, getNum_eq s n h,
        addMeasurement_sampling s n _ h hv, hv]

lemma estimateRun_unitary (s : PhaseEstimationState) (n : Nat)
    (h : s.num_evaluation_qubits = some n) (u : QuantumCircuit)
    (sp : Option QuantumCircuit) (nuq : Option Nat) :
    estimateRun s (some u) sp none nuq =
      ⟨Except.ok ⟨(if s.is_statevector then constructBare n u sp
                   else measuredCircuit n (constructBare n u sp)),
                  some u.num_qubits⟩,
       s,
       [if s.is_statevector then constructBare n u sp
        else measuredCircuit n (constructBare n u sp)],
       none⟩ := by
  simp [estimateRun, getNum_eq s n h, construct_circuit_eq s n h u sp]

lemma estimateRun_pe (s : PhaseEstimationState) (n : Nat)
    (h : s.num_evaluation_qubits = some n) (pc : QuantumCircuit)
    (sp : Option QuantumCircuit) (nuq : Option Nat) :
    estimateRun s none sp (some pc) nuq =
      ⟨Except.ok ⟨(if s.is_statevector then pc else measuredCircuit n pc), nuq⟩,
       s,
       [if s.is_statevector then pc else measuredCircuit n pc],
       some (if s.is_statevector then pc else measuredCircuit n pc)⟩ := by
  cases hv : s.is_statevector with
  | true =>
      simp [estimateRun, getNum_eq s n h,
        addMeasurement_statevector s pc hv, hv]
  | false =>
      simp [estimateRun, getNum_eq s n h,
        addMeasurement_sampling s n pc h hv, hv]

lemma sum_map_div_list (l : List Nat) (s : Rat) :
    (l.map (fun a : Nat => (a : Rat) / s)).sum
      = ((l.map (fun a : Nat => (a : Rat))).sum) / s := by
  induction l with
  | nil => simp
  | cons a t ih => simp only [List.map_cons, List.sum_cons, ih, add_div]

lemma cast_list_sum (l : List Nat) :
    (l.map (fun a : Nat => (a : Rat))).sum = (l.sum : Rat) := by
  induction l with
  | nil => simp
  | cons a t ih => simp only [List.map_cons, List.sum_cons, ih, Nat.cast_add]

/-- Claim C1 (amended): on an instance whose evaluation width was assigned,
`estimate` succeeds when exactly one of `unitary` / `pe_circuit` is non-null;
with both non-null it fails with the configuration `ValueError` carrying the
verbatim message "Only one of `pe_circuit` and `unitary` may be passed.", and
with both null it fails with "One of `pe_circuit` and `unitary` must be
passed." (The claim's lowercase, period-free message texts do not match the
source; see the counterexample.) -/
theorem c1_estimate_argument_check (s : PhaseEstimationState) (n : Nat)
    (h : s.num_evaluation_qubits = some n)
    (u pc : QuantumCircuit) (sp : Option QuantumCircuit) (nuq : Option Nat) :
    (∃ t, (estimateRun s (some u) sp none nuq).result = Except.ok t) ∧
    (∃ t, (estimateRun s none sp (some pc) nuq).result = Except.ok t) ∧
    (estimateRun s (some u) sp (some pc) nuq).result
      = Except.error (PyError.valueError
          "Only one of `pe_circuit` and `unitary` may be passed.") ∧
    (estimateRun s none sp none nuq).result
      = Except.error (PyError.valueError
          "One of `pe_circuit` and `unitary` must be passed.") := by
  refine ⟨⟨⟨(if s.is_statevector then constructBare n u sp
             else measuredCircuit n (constructBare n u sp)),
            some u.num_qubits⟩, ?_⟩,
          ⟨⟨(if s.is_statevector then pc else measuredCircuit n pc), nuq⟩, ?_⟩,
          ?_, ?_⟩
  · rw [estimateRun_unitary s n h u sp nuq]
  · rw [estimateRun_pe s n h pc sp nuq]
  · simp [estimateRun, getNum_eq s n h]
  · simp [estimateRun, getNum_eq s n h]

/-- Claim C1, counterexample: at a concrete both-non-null call the raised
error carries the source's capitalized, period-terminated message, which is
not the message text stated in the claim. -/
theorem c1_counterexample :
    (estimateRun stSampling (some circU) none (some circPE) none).result
      = Except.error (PyError.valueError
          "Only one of `pe_circuit` and `unitary` may be passed.") ∧
    "Only one of `pe_circuit` and `unitary` may be passed."
      ≠ "only one of `pe_circuit` and `unitary` may be passed" :=
  ⟨rfl, by decide⟩

/-- Claim C1, witness: the amended argument-check trichotomy evaluated on a
concrete sampling-mode instance with two evaluation qubits. -/
theorem c1_witness :
    stSampling.num_evaluation_qubits = some 2 ∧
    ((∃ t, (estimateRun stSampling (some circU) none none none).result
        = Except.ok t) ∧
     (∃ t, (estimateRun stSampling none none (some circPE) none).result
        = Except.ok t) ∧
     (estimateRun stSampling (some circU) none (some circPE) none).result
       = Except.error (PyError.valueError
           "Only one of `pe_circuit` and `unitary` may be passed.") ∧
     (estimateRun stSampling none none none none).result
       = Except.error (PyError.valueError
           "One of `pe_circuit` and `unitary` must be passed.")) :=
  ⟨rfl, c1_estimate_argument_check stSampling 2 rfl circU circPE none none⟩

/-- Claim C2: the sampling path of `_compute_phases` returns exactly the
bit-reversed observed keys, each mapped to its count divided by the shot
count (as a list permutation, since `_sort_phases` only reorders entries:
nothing is zero-filled, nothing dropped); on the spec's concrete example
`{"00": 50, "10": 50}` with 100 shots the output is
`{"00": 0.5, "01": 0.5}`. -/
theorem c2_sampling_keys_values (counts : List (String × Nat))
    (num_shots : Nat) (h : 0 < num_shots) :
    List.Perm (computePhasesSampling counts num_shots)
      (counts.map (fun kv => (strReverse kv.1, (kv.2 : Rat) / (num_shots : Rat)))) ∧
    computePhasesSampling [("00", 50), ("10", 50)] 100
      = [("00", (1 : Rat)/2), ("01", (1 : Rat)/2)] := by
  constructor
  · exact List.perm_insertionSort phaseLE _
  · simp +decide [computePhasesSampling, sortPhases, strReverse, bitsVal,
      phaseLE, List.insertionSort, List.orderedInsert]
    norm_num

/-- Claim C2, witness: the key/value permutation and the concrete example,
evaluated at `{"00": 50, "10": 50}` with 100 shots. -/
theorem c2_witness :
    0 < 100 ∧
    (List.Perm (computePhasesSampling [("00", 50), ("10", 50)] 100)
       ([("00", 50), ("10", 50)].map
         (fun kv => (strReverse kv.1, (kv.2 : Rat) / ((100 : Nat) : Rat)))) ∧
     computePhasesSampling [("00", 50), ("10", 50)] 100
       = [("00", (1 : Rat)/2), ("01", (1 : Rat)/2)]) :=
  ⟨by decide, c2_sampling_keys_values [("00", 50), ("10", 50)] 100 (by decide)⟩

/-- Claim C3: the distribution produced by the sampling path iterates its
keys in non-decreasing numeric order, the order of a key being the value of
the (already bit-reversed) bitstring read as an unsigned binary number with
the most-significant bit leftmost. -/
theorem c3_sampling_sorted (counts : List (String × Nat)) (num_shots : Nat) :
    List.Sorted phaseLE (computePhasesSampling counts num_shots) :=
  List.sorted_insertionSort phaseLE _

/-- Claim C4: when `unitary` is supplied (and `pe_circuit` is not), the
circuit handed to the executor is exactly the output of `construct_circuit`
on that unitary and state preparation, and the `num_unitary_qubits` used
downstream is the unitary's qubit count, whatever `num_unitary_qubits` the
caller passed. -/
theorem c4_unitary_overrides (s : PhaseEstimationState) (n : Nat)
    (h : s.num_evaluation_qubits = some n) (u : QuantumCircuit)
    (sp : Option QuantumCircuit) (nuq : Option Nat) :
    ∃ c, construct_circuit s u sp = Except.ok c ∧
      estimateRun s (some u) sp none nuq
        = ⟨Except.ok ⟨c, some u.num_qubits⟩, s, [c], none⟩ :=
  ⟨_, construct_circuit_eq s n h u sp, estimateRun_unitary s n h u sp nuq⟩

/-- Claim C4, witness: a concrete call passing `num_unitary_qubits = 7`
still records `circU.num_qubits` (which is 1) as the value in use. -/
theorem c4_witness :
    stSampling.num_evaluation_qubits = some 2 ∧
    ∃ c, construct_circuit stSampling circU none = Except.ok c ∧
      estimateRun stSampling (some circU) none none (some 7)
        = ⟨Except.ok ⟨c, some circU.num_qubits⟩, stSampling, [c], none⟩ :=
  ⟨rfl, c4_unitary_overrides stSampling 2 rfl circU none (some 7)⟩

/-- Claim C5: for a well-formed state-preparation circuit (its instructions
touch only qubits below the unitary's qubit count), `construct_circuit`
prepends its instructions in front of the template, remapped onto exactly
the qubit range `[n, n + num_unitary_qubits)`; in particular every qubit
they touch is at least `n`, so the evaluation qubits `0 .. n-1` receive no
state-preparation instruction. -/
theorem c5_state_prep_placement (s : PhaseEstimationState) (n : Nat)
    (h : s.num_evaluation_qubits = some n) (u sp : QuantumCircuit)
    (hwf : ∀ ins ∈ sp.data, ∀ q ∈ ins.qubits, q < u.num_qubits) :
    ∃ c rest, construct_circuit s u (some sp) = Except.ok c ∧
      c.data = sp.data.map (shiftIns n) ++ rest ∧
      ∀ ins ∈ sp.data.map (shiftIns n), ∀ q ∈ ins.qubits,
        n ≤ q ∧ q < n + u.num_qubits := by
  have hrange : ∀ ins ∈ sp.data.map (shiftIns n), ∀ q ∈ ins.qubits,
      n ≤ q ∧ q < n + u.num_qubits := by
    intro ins hins q hq
    rcases List.mem_map.mp hins with ⟨ins0, hins0, rfl⟩
    simp only [shiftIns, List.mem_map] at hq
    rcases hq with ⟨q0, hq0, rfl⟩
    exact ⟨Nat.le_add_right n q0, Nat.add_lt_add_left (hwf ins0 hins0 q0 hq0) n⟩
  cases hv : s.is_statevector with
  | true =>
      refine ⟨constructBare n u (some sp), (libraryPhaseEstimation n u).data,
        ?_, ?_, hrange⟩
      · simp [construct_circuit_eq s n h u (some sp), hv]
      · simp [constructBare, composeFront]
  | false =>
      refine ⟨measuredCircuit n (constructBare n u (some sp)),
        (libraryPhaseEstimation n u).data
          ++ Instruction.mk "barrier"
               (List.range (constructBare n u (some sp)).num_qubits) []
            :: (List.range n).map (fun i => Instruction.mk "measure" [i] [i]),
        ?_, ?_, hrange⟩
      · simp [construct_circuit_eq s n h u (some sp), hv]
      · simp [measuredCircuit, constructBare, composeFront, List.append_assoc]

/-- Claim C5, witness: a one-qubit state preparation composed with a
one-qubit unitary on a two-qubit evaluation register lands on qubit 2 only. -/
theorem c5_witness :
    stSampling.num_evaluation_qubits = some 2 ∧
    (∀ ins ∈ circSP.data, ∀ q ∈ ins.qubits, q < circU.num_qubits) ∧
    (∃ c rest, construct_circuit stSampling circU (some circSP) = Except.ok c ∧
      c.data = circSP.data.map (shiftIns 2) ++ rest ∧
      ∀ ins ∈ circSP.data.map (shiftIns 2), ∀ q ∈ ins.qubits,
        2 ≤ q ∧ q < 2 + circU.num_qubits) :=
  ⟨rfl, by decide,
   c5_state_prep_placement stSampling 2 rfl circU circSP (by decide)⟩

/-- Claim C6: `_add_measurement_if_required` leaves the circuit untouched on
a statevector executor; otherwise it adds the classical register
`("meas", n)`, then a barrier, then measurements of exactly the evaluation
qubits `0 .. n-1` in ascending order, each into the classical bit of the
same index. -/
theorem c6_measurement_branches (s : PhaseEstimationState) (n : Nat)
    (c : QuantumCircuit) (h : s.num_evaluation_qubits = some n) :
    (s.is_statevector = true →
      addMeasurementIfRequired s c = Except.ok c) ∧
    (s.is_statevector = false →
      addMeasurementIfRequired s c = Except.ok
        { c with
          cregs := c.cregs ++ [("meas", n)]
        , data := c.data
            ++ Instruction.mk "barrier" (List.range c.num_qubits) []
              :: (List.range n).map
                   (fun i => Instruction.mk "measure" [i] [i]) }) :=
  ⟨fun hv => addMeasurement_statevector s c hv,
   fun hv => addMeasurement_sampling s n c h hv⟩

/-- Claim C6, witness: both branches evaluated on a concrete three-qubit
circuit with a two-qubit evaluation register. -/
theorem c6_witness :
    stSampling.num_evaluation_qubits = some 2 ∧
    ((stSampling.is_statevector = true →
       addMeasurementIfRequired stSampling circPE = Except.ok circPE) ∧
     (stSampling.is_statevector = false →
       addMeasurementIfRequired stSampling circPE = Except.ok
         { circPE with
           cregs := circPE.cregs ++ [("meas", 2)]
         , data := circPE.data
             ++ Instruction.mk "barrier" (List.range circPE.num_qubits) []
               :: (List.range 2).map
                    (fun i => Instruction.mk "measure" [i] [i]) })) :=
  ⟨rfl, c6_measurement_branches stSampling 2 circPE rfl⟩

/-- Claim C7: in the sampling path, when the counts total the (positive)
shot count, the frequencies of the returned distribution sum to exactly 1. -/
theorem c7_frequencies_sum_one (counts : List (String × Nat))
    (num_shots : Nat) (h0 : 0 < num_shots)
    (hsum : (counts.map Prod.snd).sum = num_shots) :
    ((computePhasesSampling counts num_shots).map Prod.snd).sum = 1 := by
  have hperm :
      List.Perm ((computePhasesSampling counts num_shots).map Prod.snd)
        ((counts.map (fun kv =>
          (strReverse kv.1, (kv.2 : Rat) / (num_shots : Rat)))).map Prod.snd) :=
    (List.perm_insertionSort phaseLE _).map Prod.snd
  rw [hperm.sum_eq]
  have h1 : (counts.map (fun kv =>
        (strReverse kv.1, (kv.2 : Rat) / (num_shots : Rat)))).map Prod.snd
      = (counts.map Prod.snd).map (fun a : Nat => (a : Rat) / (num_shots : Rat)) := by
    simp [List.map_map, Function.comp]
  rw [h1, sum_map_div_list, cast_list_sum, hsum]
  exact div_self (Nat.cast_ne_zero.mpr h0.ne')

/-- Claim C7, witness: frequencies sum to 1 on the concrete two-key counts
with 100 shots. -/
theorem c7_witness :
    0 < 100 ∧ (([("00", 50), ("10", 50)] : List (String × Nat)).map Prod.snd).sum = 100 ∧
    ((computePhasesSampling [("00", 50), ("10", 50)] 100).map Prod.snd).sum = 1 :=
  ⟨by decide, by decide,
   c7_frequencies_sum_one [("00", 50), ("10", 50)] 100 (by decide) (by decide)⟩

/-- Claim C8: when the argument contract is violated, `estimate` returns the
configuration error with the instance state unchanged, no call made to the
executor, and the caller's `pe_circuit` object untouched: the failure
happens before any circuit construction or execution. -/
theorem c8_error_atomicity (s : PhaseEstimationState) (n : Nat)
    (h : s.num_evaluation_qubits = some n)
    (u pc : QuantumCircuit) (sp : Option QuantumCircuit) (nuq : Option Nat) :
    estimateRun s (some u) sp (some pc) nuq
      = ⟨Except.error (PyError.valueError
            "Only one of `pe_circuit` and `unitary` may be passed."),
         s, [], some pc⟩ ∧
    estimateRun s none sp none nuq
      = ⟨Except.error (PyError.valueError
            "One of `pe_circuit` and `unitary` must be passed."),
         s, [], none⟩ := by
  constructor <;> simp [estimateRun, getNum_eq s n h]

/-- Claim C8, witness: both violated-contract calls evaluated concretely. -/
theorem c8_witness :
    stSampling.num_evaluation_qubits = some 2 ∧
    (estimateRun stSampling (some circU) none (some circPE) none
       = ⟨Except.error (PyError.valueError
             "Only one of `pe_circuit` and `unitary` may be passed."),
          stSampling, [], some circPE⟩ ∧
     estimateRun stSampling none none none none
       = ⟨Except.error (PyError.valueError
             "One of `pe_circuit` and `unitary` must be passed."),
          stSampling, [], none⟩) :=
  ⟨rfl, c8_error_atomicity stSampling 2 rfl circU circPE none none⟩

/-- Claim C9, counterexample: on a sampling-mode instance, a successful
`estimate` call that is given `pe_circuit` mutates the caller's circuit
object in place (the measurement register, barrier and measurements are
appended to it), so the caller-supplied argument circuit is not left
unmodified. -/
theorem c9_counterexample :
    (estimateRun stSampling none none (some circPE) (some 1)).final_pe_circuit_arg
      ≠ some circPE := by decide

/-- Claim C9 (amended): with a statevector executor, or when `unitary` is
supplied instead of `pe_circuit`, the caller's `pe_circuit` argument is not
mutated; but with a sampling executor a supplied `pe_circuit` is mutated in
place into its measured version, which differs from the original. -/
theorem c9_mutation_amended (s : PhaseEstimationState) (n : Nat)
    (h : s.num_evaluation_qubits = some n) (pc : QuantumCircuit)
    (sp : Option QuantumCircuit) (nuq : Option Nat) :
    (s.is_statevector = true →
      (estimateRun s none sp (some pc) nuq).final_pe_circuit_arg = some pc) ∧
    (s.is_statevector = false →
      (estimateRun s none sp (some pc) nuq).final_pe_circuit_arg
          = some (measuredCircuit n pc) ∧ measuredCircuit n pc ≠ pc) ∧
    (∀ u : QuantumCircuit,
      (estimateRun s (some u) sp none nuq).final_pe_circuit_arg = none) := by
  refine ⟨fun hv => ?_, fun hv => ⟨?_, ?_⟩, fun u => ?_⟩
  · rw [estimateRun_pe s n h pc sp nuq]; simp [hv]
  · rw [estimateRun_pe s n h pc sp nuq]; simp [hv]
  · intro heq
    have hlen := congrArg (fun c => c.data.length) heq
    simp [measuredCircuit] at hlen
  · rw [estimateRun_unitary s n h u sp nuq]

/-- Claim C9, witness: the amended mutation statement evaluated on the
concrete sampling-mode instance and three-qubit circuit. -/
theorem c9_witness :
    stSampling.num_evaluation_qubits = some 2 ∧
    ((stSampling.is_statevector = true →
       (estimateRun stSampling none none (some circPE) none).final_pe_circuit_arg
         = some circPE) ∧
     (stSampling.is_statevector = false →
       (estimateRun stSampling none none (some circPE) none).final_pe_circuit_arg
           = some (measuredCircuit 2 circPE) ∧ measuredCircuit 2 circPE ≠ circPE) ∧
     (∀ u : QuantumCircuit,
       (estimateRun stSampling (some u) none none none).final_pe_circuit_arg
         = none)) :=
  ⟨rfl, c9_mutation_amended stSampling 2 rfl circPE none none⟩

/-- Claim C10: constructing with `num_evaluation_qubits = None` leaves the
width attribute unassigned, so both `construct_circuit` and `estimate` fail
immediately with the attribute-access error (and make no executor call),
while construction with a non-None width assigns the attribute. -/
theorem c10_unassigned_width (iv : Bool) (u : QuantumCircuit)
    (uo sp pe : Option QuantumCircuit) (nuq : Option Nat) :
    (phaseEstimationInit none iv).num_evaluation_qubits = none ∧
    construct_circuit (phaseEstimationInit none iv) u sp
      = Except.error (PyError.attributeError "_num_evaluation_qubits") ∧
    (estimateRun (phaseEstimationInit none iv) uo sp pe nuq).result
      = Except.error (PyError.attributeError "_num_evaluation_qubits") ∧
    (estimateRun (phaseEstimationInit none iv) uo sp pe nuq).executor_calls
      = [] ∧
    (∀ m : Nat, (phaseEstimationInit (some m) iv).num_evaluation_qubits
      = some m) := by
  refine ⟨rfl, ?_, ?_, ?_, fun m => rfl⟩ <;>
    simp [construct_circuit, estimateRun, getNumEvaluationQubits,
      phaseEstimationInit]

end QPE
